import Mathlib

/-!
Verification of the dependency-inference and target-materialization subsystem
of the build graph (Go backend target rules and JVM resource classpath
assembly), as a shallow embedding of the Python sources:

* `src/python/pants/backend/go/target_type_rules.py`
* `src/python/pants/jvm/resources.py`

Paths and import identifiers are modelled as lists of characters (Python
strings); collections are Lean lists kept in the order the Python code
produces them.
-/

namespace Pants

/-- A Python string (file path, import path, message fragment, ...). -/
abbrev Path := List Char

/-- An import identifier as it appears in Go source (an opaque string). -/
abbrev ImportPath := Path

/-- An engine `Address`: the directory of the owning BUILD file, the target
name, and, for generated targets, the discriminator passed to
`Address.create_generated`. -/
structure Address where
  spec_path : Path
  target_name : Path
  generated_name : Option Path := none
deriving DecidableEq

/-- `Address.create_generated`: derive a generated child address from a parent
plus a discriminator string. -/
def Address.create_generated (a : Address) (disc : Path) : Address :=
  { a with generated_name := some disc }

/-- `ImportPathToPackages` from `target_type_rules.py`: the mapping from import
path to the addresses of all targets claiming it (`FrozenDict.get` with
default `()` is modelled as a total function into lists). -/
structure ImportPathToPackages where
  mapping : ImportPath → List Address

/-- `GoStdLibImports`: the set of standard-library import paths (membership is
all the rules use). -/
abbrev GoStdLibImports := List ImportPath

/-- The body of the per-import-path loop of `infer_go_dependencies`
(`target_type_rules.py` lines 114-130): skip standard-library imports, skip
ambiguous (`len > 1`) and unresolved (`len = 0`) candidate lists, and
contribute `candidate_packages[0]` when there is exactly one candidate. -/
def infer_loop_body (std_lib_imports : GoStdLibImports)
    (package_mapping : ImportPathToPackages) (import_path : ImportPath) :
    List Address :=
  if import_path ∈ std_lib_imports then []
  else
    let candidate_packages := package_mapping.mapping import_path
    if candidate_packages.length > 1 then []
    else if candidate_packages.length = 1 then candidate_packages.take 1
    else []

/-- `infer_go_dependencies`: the inferred dependencies of a first-party
package, iterating over `(*imports, *test_imports, *xtest_imports)`. -/
def infer_go_dependencies (std_lib_imports : GoStdLibImports)
    (package_mapping : ImportPathToPackages)
    (imports test_imports xtest_imports : List ImportPath) : List Address :=
  ((imports ++ test_imports) ++ xtest_imports).flatMap
    (infer_loop_body std_lib_imports package_mapping)

/-- The body of the per-import-path loop of
`inject_go_third_party_package_dependencies` (`target_type_rules.py` lines
162-179); textually the same resolution as `infer_loop_body`. -/
def third_party_loop_body (std_lib_imports : GoStdLibImports)
    (package_mapping : ImportPathToPackages) (import_path : ImportPath) :
    List Address :=
  if import_path ∈ std_lib_imports then []
  else
    let candidate_packages := package_mapping.mapping import_path
    if candidate_packages.length > 1 then []
    else if candidate_packages.length = 1 then candidate_packages.take 1
    else []

/-- `inject_go_third_party_package_dependencies`: the injected dependencies of
a third-party package are the resolutions of `pkg_info.imports`; the owning
`go_mod` address is fetched only to build the `ThirdPartyPkgInfoRequest` and is
never itself returned. -/
def inject_go_third_party_package_dependencies
    (std_lib_imports : GoStdLibImports)
    (package_mapping : ImportPathToPackages)
    (imports : List ImportPath) : List Address :=
  imports.flatMap (third_party_loop_body std_lib_imports package_mapping)

/-- `inject_go_package_dependencies`: a first-party package's injected
dependencies are exactly the owning `go_mod` target's address. -/
def inject_go_package_dependencies (owning_go_mod_address : Address) :
    List Address :=
  [owning_go_mod_address]

/-- Membership in the resolution of one import path: an address is contributed
exactly when the import path is not standard-library and it is the unique
candidate. Shared characterisation used by several theorems below. -/
theorem mem_infer_loop_body (std : GoStdLibImports) (m : ImportPathToPackages)
    (ip : ImportPath) (a : Address) :
    a ∈ infer_loop_body std m ip ↔
      ip ∉ std ∧ m.mapping ip = [a] := by
  unfold infer_loop_body
  by_cases hstd : ip ∈ std
  · simp [hstd]
  · simp only [hstd, if_false, not_false_iff, true_and]
    rcases hm : m.mapping ip with _ | ⟨b, _ | ⟨c, t⟩⟩
    · simp
    · simp [eq_comm]
    · simp

/-- The two loop bodies are definitionally the same resolution. -/
theorem infer_loop_body_eq_third_party_loop_body
    (std : GoStdLibImports) (m : ImportPathToPackages) (ip : ImportPath) :
    infer_loop_body std m ip = third_party_loop_body std m ip := rfl

/-! ## Entry-point resolution for `go_binary` (`determine_main_pkg_for_go_binary`) -/

/-- The slice of a target needed by `determine_main_pkg_for_go_binary`: its
address, its alias, whether it has the `GoFirstPartyPackageSourcesField` and
the `GoFirstPartyPackageSubpathField`, and that subpath field's
`full_dir_path` property. -/
structure Target where
  address : Address
  target_alias : Path
  has_first_party_sources_field : Bool
  has_subpath_field : Bool
  subpath_full_dir_path : Path
deriving DecidableEq

/-- The errors `determine_main_pkg_for_go_binary` can raise, carrying the data
interpolated into their messages. -/
inductive BinaryMainError where
  /-- `InvalidFieldException`: the explicit `main` field points at a target of
  the wrong kind; the message names the expected alias and the actual alias. -/
  | invalidFieldException (expected actual : Path)
  /-- `ResolveError`: no `go_first_party_package` target exists for the
  binary's directory. -/
  | resolveErrorNoPackage (dir : Path)
  /-- `ResolveError`: multiple `go_first_party_package` targets exist for the
  binary's directory; the message names the candidate addresses. -/
  | resolveErrorAmbiguous (candidates : List Address)
deriving DecidableEq

/-- The filter of `determine_main_pkg_for_go_binary` (lines 303-310): among
the ascendant-search candidates, the targets with a
`GoFirstPartyPackageSubpathField` whose `full_dir_path` equals the binary's
`spec_path`. -/
def relevant_pkg_targets (candidate_targets : List Target)
    (addr_spec_path : Path) : List Target :=
  candidate_targets.filter fun tgt =>
    tgt.has_subpath_field && tgt.subpath_full_dir_path = addr_spec_path

/-- `determine_main_pkg_for_go_binary`: `field_value` is the binary's `main`
field; `specified_tgt` is the target the explicit value resolves to (consulted
only when `field_value` is set); `candidate_targets` are the targets found by
`AscendantAddresses(addr.spec_path)`. In the source the two no-match /
ambiguous failures are both `ResolveError`s distinguished by message; the
ambiguous message names `sorted(tgt.address.spec for tgt in
relevant_pkg_targets)`, modelled as the candidate address list. -/
def determine_main_pkg_for_go_binary (field_value : Option Path)
    (specified_tgt : Target) (candidate_targets : List Target)
    (addr_spec_path : Path) : Except BinaryMainError Address :=
  match field_value with
  | some _ =>
    if !specified_tgt.has_first_party_sources_field then
      .error (.invalidFieldException (String.toList "go_first_party_package")
        specified_tgt.target_alias)
    else
      .ok specified_tgt.address
  | none =>
    let relevant := relevant_pkg_targets candidate_targets addr_spec_path
    match relevant with
    | [tgt] => .ok tgt.address
    | [] => .error (.resolveErrorNoPackage addr_spec_path)
    | _ => .error (.resolveErrorAmbiguous (relevant.map Target.address))

/-! ## Target generation from `go_mod` (`generate_targets_from_go_mod`) -/

/-- `os.path.dirname`: everything before the last `/`, the empty string when
there is no `/`. -/
def dirname (p : Path) : Path :=
  (((p.reverse.dropWhile (fun c => c ≠ '/')).drop 1)).reverse

/-- `os.path.basename`: everything after the last `/`. -/
def basename (p : Path) : Path :=
  (p.reverse.takeWhile (fun c => c ≠ '/')).reverse

/-- First-occurrence deduplication, matching Python dict insertion order. -/
def dedupKeepFirst : List Path → List Path
  | [] => []
  | d :: ds => d :: (dedupKeepFirst ds).filter (fun e => e ≠ d)

/-- Modelled from the spec: `group_by_dir` (from `pants.core.goals.tailor`,
not present under `src/`) groups the discovered source files by containing
directory, mapping each directory to the file names found directly in it. -/
def group_by_dir (files : List Path) : List (Path × List Path) :=
  (dedupKeepFirst (files.map dirname)).map fun d =>
    (d, (files.filter (fun f => dirname f = d)).map basename)

/-- `os.path.join(subpath, f)` for the path shapes the generator produces:
`f` when `subpath` is empty, `subpath ++ "/" ++ f` otherwise. -/
def path_join (subpath f : Path) : Path :=
  if subpath = [] then f else subpath ++ '/' :: f

/-- Lexicographic comparison of paths, for Python `sorted`. -/
def pathLe : Path → Path → Bool
  | [], _ => true
  | _ :: _, [] => false
  | a :: as, b :: bs => if a = b then pathLe as bs else decide (a < b)

/-- Insertion into a sorted list of paths. -/
def insertSorted (x : Path) : List Path → List Path
  | [] => [x]
  | y :: ys => if pathLe x y then x :: y :: ys else y :: insertSorted x ys

/-- Python `sorted` on a list of paths. -/
def sortPaths (l : List Path) : List Path := l.foldr insertSorted []

/-- The fields of a generated `GoFirstPartyPackageTarget` that
`create_first_party_package_tgt` sets, plus its generated address. -/
structure GoFirstPartyPackageTarget where
  import_path : Path
  subpath : Path
  sources : List Path
  address : Address
deriving DecidableEq

/-- `create_first_party_package_tgt` (lines 227-252): compute the subpath of
`dir` below the `go_mod`'s `spec_path` (`dir` itself when the spec path is
empty, `""` when they are equal, the slice after the `/` otherwise), then
the import path `<go_mod import path>/<subpath>` (the import path alone when the
subpath is empty), the sorted re-rooted sources, and the generated address
discriminated by `./<subpath>`. The guarding assertion
`dir.startswith(go_mod_spec_path)` is treated separately. -/
def create_first_party_package_tgt (generator_addr : Address)
    (go_mod_import_path : Path) (dir : Path) (filenames : List Path) :
    GoFirstPartyPackageTarget :=
  let go_mod_spec_path := generator_addr.spec_path
  let subpath :=
    if go_mod_spec_path = [] then dir
    else if dir = go_mod_spec_path then []
    else dir.drop (go_mod_spec_path.length + 1)
  let import_path :=
    if subpath = [] then go_mod_import_path
    else go_mod_import_path ++ '/' :: subpath
  { import_path := import_path
    subpath := subpath
    sources := sortPaths (filenames.map (path_join subpath))
    address := generator_addr.create_generated ('.' :: '/' :: subpath) }

/-- The slice of `ThirdPartyPkgInfo` used by the generator. -/
structure ThirdPartyPkgInfo where
  module_path : Path
  version : Path
  import_path : Path
deriving DecidableEq

/-- The fields of a generated `GoThirdPartyPackageTarget`. -/
structure GoThirdPartyPackageTarget where
  module_path : Path
  version : Path
  import_path : Path
  address : Address
deriving DecidableEq

/-- `create_third_party_package_tgt`: one third-party target per package info,
addressed as a generated child discriminated by the package's import path. -/
def create_third_party_package_tgt (generator_addr : Address)
    (pkg_info : ThirdPartyPkgInfo) : GoThirdPartyPackageTarget :=
  { module_path := pkg_info.module_path
    version := pkg_info.version
    import_path := pkg_info.import_path
    address := generator_addr.create_generated pkg_info.import_path }

/-- A target generated by `generate_targets_from_go_mod`. -/
inductive GeneratedTarget where
  | firstParty (t : GoFirstPartyPackageTarget)
  | thirdParty (t : GoThirdPartyPackageTarget)
deriving DecidableEq

/-- The address of a generated target. -/
def GeneratedTarget.address : GeneratedTarget → Address
  | .firstParty t => t.address
  | .thirdParty t => t.address

/-- `generate_targets_from_go_mod`: group the discovered files by directory,
keep the directories with at least one file, create one first-party target per
such directory, and one third-party target per package of each resolved
module; the result is the first-party targets followed by the third-party
targets. Inputs are the manifest state (`generator_addr`, the `go_mod`
manifest's import path), the file-discovery result (`files`), and the module-resolution
results (`all_module_info`, one package-info list per module descriptor). -/
def generate_targets_from_go_mod (generator_addr : Address)
    (go_mod_import_path : Path) (files : List Path)
    (all_module_info : List (List ThirdPartyPkgInfo)) : List GeneratedTarget :=
  let dir_to_filenames := group_by_dir files
  let matched := dir_to_filenames.filter fun df => df.2 ≠ []
  (matched.map fun df =>
      GeneratedTarget.firstParty
        (create_first_party_package_tgt generator_addr go_mod_import_path
          df.1 df.2)) ++
    (all_module_info.flatMap fun module_info =>
      module_info.map fun pkg_info =>
        GeneratedTarget.thirdParty
          (create_third_party_package_tgt generator_addr pkg_info))

/-! ## Classpath assembly for resources (`pants/jvm/resources.py`) -/

/-- A content digest. Digests are opaque to the assembly logic; their contents
are modelled as lists of atoms so that merging is explicit. -/
abbrev Digest := List Nat

/-- Modelled from the spec: `MergeDigests` (engine primitive, not present
under `src/`) combines a list of digests into the digest owning all their
contents. -/
def mergeDigests (ds : List Digest) : Digest := ds.flatten

/-- `CompileResult` from `pants.jvm.compile` (not present under `src/`; the
three variants are named by the spec). -/
inductive CompileResult where
  | SUCCEEDED
  | FAILED
  | DEPENDENCY_FAILED
deriving DecidableEq

/-- `ClasspathEntry`: a digest, an ordered list of output file names, and the
nested entries recording merge provenance. -/
inductive ClasspathEntry where
  | mk (digest : Digest) (filenames : List Path)
      (dependencies : List ClasspathEntry)

/-- The digest of a classpath entry. -/
def ClasspathEntry.digest : ClasspathEntry → Digest
  | .mk d _ _ => d

/-- The output file names of a classpath entry. -/
def ClasspathEntry.filenames : ClasspathEntry → List Path
  | .mk _ f _ => f

/-- The nested entries of a classpath entry. -/
def ClasspathEntry.dependencies : ClasspathEntry → List ClasspathEntry
  | .mk _ _ e => e

/-- Modelled from the spec: `ClasspathEntry.merge` (from `pants.jvm.compile`,
not present under `src/`) builds an entry with the given merged digest, the
concatenation of the input entries' file lists in order, and the input entries
as nested provenance. -/
def ClasspathEntry.merge (digest : Digest) (entries : List ClasspathEntry) :
    ClasspathEntry :=
  .mk digest (entries.map ClasspathEntry.filenames).flatten entries

/-- `FallibleClasspathEntry`: a description, a compile result tag, an optional
classpath entry, and an exit code. -/
structure FallibleClasspathEntry where
  description : Path
  result : CompileResult
  output : Option ClasspathEntry
  exit_code : Int

/-- Modelled from the spec: `FallibleClasspathEntries.if_all_succeeded` (from
`pants.jvm.compile`, not present under `src/`) returns the entries when every
result is SUCCEEDED and `None` when any is not. -/
def if_all_succeeded (fallibles : List FallibleClasspathEntry) :
    Option (List ClasspathEntry) :=
  if fallibles.all (fun f => f.result = CompileResult.SUCCEEDED) then
    some (fallibles.filterMap FallibleClasspathEntry.output)
  else
    none

/-- Modelled from the spec: `Address.path_safe_spec` (engine address
rendering, not present under `src/`) — a deterministic name derived from the
unit's address. -/
def path_safe_spec (a : Address) : Path :=
  a.spec_path ++ '.' :: a.target_name ++
    (match a.generated_name with
     | some g => '.' :: g
     | none => [])

/-- `assemble_resources_jar`: `prereq_results` is the fallible result list for
the optional prerequisite request (empty or a singleton), `dep_results` the
fallible results of the direct dependencies, `component_description` is
`str(request.component)`, `address` the representative member's address,
`stripped_files` the component's stripped source files, and `zip` the
external zip process, mapping the packaged files to the output digest of the
archive it builds. If any upstream result is not SUCCEEDED the rule
short-circuits to DEPENDENCY_FAILED with no output and exit code 1; otherwise
it packages the unit's files into `<path_safe_spec>.resources.jar` and merges
that entry with the upstream entries. -/
def assemble_resources_jar (prereq_results dep_results :
    List FallibleClasspathEntry) (component_description : Path)
    (address : Address) (stripped_files : List Path)
    (zip : List Path → Digest) : FallibleClasspathEntry :=
  let fallibles := prereq_results ++ dep_results
  match if_all_succeeded fallibles with
  | none =>
    { description := component_description
      result := .DEPENDENCY_FAILED
      output := none
      exit_code := 1 }
  | some direct_dependency_classpath_entries =>
    let output_filename := path_safe_spec address ++
      String.toList ".resources.jar"
    let cpe : ClasspathEntry := .mk (zip stripped_files) [output_filename] []
    let merged_cpe_digest := mergeDigests
      (cpe.digest :: direct_dependency_classpath_entries.map
        ClasspathEntry.digest)
    let merged_cpe := ClasspathEntry.merge merged_cpe_digest
      (cpe :: direct_dependency_classpath_entries)
    { description := output_filename
      result := .SUCCEEDED
      output := some merged_cpe
      exit_code := 0 }

/-! ## Claim theorems: dependency inference and injection -/

/-- Membership in the third-party loop body, mirrored from
`mem_infer_loop_body` (the bodies are definitionally equal). -/
theorem mem_third_party_loop_body (std : GoStdLibImports)
    (m : ImportPathToPackages) (ip : ImportPath) (a : Address) :
    a ∈ third_party_loop_body std m ip ↔ ip ∉ std ∧ m.mapping ip = [a] :=
  mem_infer_loop_body std m ip a

/-- Claim C1, counterexample: a third-party package unit with no imports
receives zero injected dependencies, so its owning module-manifest address
(here `src/go:mod`) is not among them — third-party injection does not
unconditionally return an edge to the owning manifest. -/
theorem inject_third_party_omits_owner_cex :
    inject_go_third_party_package_dependencies [] ⟨fun _ => []⟩ [] = [] ∧
      (⟨String.toList "src/go", String.toList "mod", none⟩ : Address) ∉
        inject_go_third_party_package_dependencies [] ⟨fun _ => []⟩ [] := by
  constructor
  · rfl
  · intro h
    simp [inject_go_third_party_package_dependencies] at h

/-- Claim C1, amended: first-party package injection unconditionally returns
exactly the edge to the owning module-manifest unit, independent of imports;
third-party package injection instead returns the edges resolved from the
unit's import identifiers through the standard-library and ambiguity logic
(an address is injected exactly when some import identifier is not
standard-library and has that address as its unique candidate), with no
unconditional edge to the owning manifest. -/
theorem inject_owner_edge_first_party_amended (owner : Address)
    (std : GoStdLibImports) (m : ImportPathToPackages)
    (imports : List ImportPath) (a : Address) :
    inject_go_package_dependencies owner = [owner] ∧
      (a ∈ inject_go_third_party_package_dependencies std m imports ↔
        ∃ ip ∈ imports, ip ∉ std ∧ m.mapping ip = [a]) := by
  refine ⟨rfl, ?_⟩
  unfold inject_go_third_party_package_dependencies
  rw [List.mem_flatMap]
  constructor
  · rintro ⟨ip, hip, hmem⟩
    exact ⟨ip, hip, (mem_third_party_loop_body std m ip a).mp hmem⟩
  · rintro ⟨ip, hip, hres⟩
    exact ⟨ip, hip, (mem_third_party_loop_body std m ip a).mpr hres⟩

/-- Claim C2: per-identifier resolution in first-party inference. For a
non-standard-library identifier occurring anywhere in the unit's import list,
the inferred dependencies decompose into the contributions of the preceding
identifiers, this identifier's own resolution, and the following identifiers
(so other identifiers are unaffected); and the identifier's own resolution
yields exactly the unique candidate when the index holds one, and nothing when
it holds several or none (no failure). -/
theorem infer_per_identifier_resolution (std : GoStdLibImports)
    (m : ImportPathToPackages) (pre post test_imports xtest_imports :
    List ImportPath) (ip : ImportPath) (h : ip ∉ std) :
    infer_go_dependencies std m (pre ++ ip :: post) test_imports
        xtest_imports =
      infer_go_dependencies std m pre [] [] ++ infer_loop_body std m ip ++
        infer_go_dependencies std m post test_imports xtest_imports ∧
    (∀ a : Address, m.mapping ip = [a] → infer_loop_body std m ip = [a]) ∧
    ((m.mapping ip).length > 1 → infer_loop_body std m ip = []) ∧
    (m.mapping ip = [] → infer_loop_body std m ip = []) := by
  refine ⟨?_, ?_, ?_, ?_⟩
  · unfold infer_go_dependencies
    simp [List.flatMap_append, List.append_assoc]
  · intro a hm
    simp [infer_loop_body, h, hm]
  · intro hgt
    simp [infer_loop_body, h, hgt]
  · intro hm
    simp [infer_loop_body, h, hm]

/-- Claim C2, witness: with an index holding one candidate for
`example.com/a` and two for `amb`, the unit's inferred dependencies for
the import list of `example.com/a` and `amb` are exactly the unique candidate. -/
theorem infer_per_identifier_resolution_witness :
    infer_go_dependencies
        [String.toList "fmt"]
        ⟨fun ip =>
          if ip = String.toList "example.com/a" then
            [⟨String.toList "src/a", String.toList "a", none⟩]
          else if ip = String.toList "amb" then
            [⟨String.toList "src/b", String.toList "b", none⟩,
             ⟨String.toList "src/c", String.toList "c", none⟩]
          else []⟩
        ([] ++ String.toList "example.com/a" :: [String.toList "amb"]) [] [] =
      infer_go_dependencies [String.toList "fmt"]
        ⟨fun ip =>
          if ip = String.toList "example.com/a" then
            [⟨String.toList "src/a", String.toList "a", none⟩]
          else if ip = String.toList "amb" then
            [⟨String.toList "src/b", String.toList "b", none⟩,
             ⟨String.toList "src/c", String.toList "c", none⟩]
          else []⟩
        [] [] [] ++
      infer_loop_body [String.toList "fmt"]
        ⟨fun ip =>
          if ip = String.toList "example.com/a" then
            [⟨String.toList "src/a", String.toList "a", none⟩]
          else if ip = String.toList "amb" then
            [⟨String.toList "src/b", String.toList "b", none⟩,
             ⟨String.toList "src/c", String.toList "c", none⟩]
          else []⟩
        (String.toList "example.com/a") ++
      infer_go_dependencies [String.toList "fmt"]
        ⟨fun ip =>
          if ip = String.toList "example.com/a" then
            [⟨String.toList "src/a", String.toList "a", none⟩]
          else if ip = String.toList "amb" then
            [⟨String.toList "src/b", String.toList "b", none⟩,
             ⟨String.toList "src/c", String.toList "c", none⟩]
          else []⟩
        [String.toList "amb"] [] [] :=
  (infer_per_identifier_resolution _ _ [] [String.toList "amb"] [] []
    (String.toList "example.com/a") (by decide)).1

/-- Claim C6: a standard-library import identifier contributes no edge, in
first-party inference and in third-party injection alike, whatever the Import
Index claims for it. -/
theorem stdlib_import_never_edge (std : GoStdLibImports)
    (m : ImportPathToPackages) (ip : ImportPath) (h : ip ∈ std) :
    infer_loop_body std m ip = [] ∧ third_party_loop_body std m ip = [] := by
  constructor
  · simp [infer_loop_body, h]
  · simp [third_party_loop_body, h]

/-- Claim C6, witness: even though a user-defined unit claims the
standard-library identifier `fmt` in the index, neither resolution adds an
edge for it. -/
theorem stdlib_import_never_edge_witness :
    infer_loop_body [String.toList "fmt"]
        ⟨fun _ => [⟨String.toList "src/fake", String.toList "fake", none⟩]⟩
        (String.toList "fmt") = [] ∧
      third_party_loop_body [String.toList "fmt"]
        ⟨fun _ => [⟨String.toList "src/fake", String.toList "fake", none⟩]⟩
        (String.toList "fmt") = [] :=
  stdlib_import_never_edge _ _ _ (by decide)

/-- Claim C9: the per-identifier resolution of first-party inference and of
third-party injection agree — the loop bodies are equal as functions of the
identifier, and over a whole identifier list the two operations compute the
same edge list. -/
theorem infer_inject_resolution_agree (std : GoStdLibImports)
    (m : ImportPathToPackages) (ip : ImportPath)
    (imports : List ImportPath) :
    infer_loop_body std m ip = third_party_loop_body std m ip ∧
      infer_go_dependencies std m imports [] [] =
        inject_go_third_party_package_dependencies std m imports := by
  constructor
  · rfl
  · unfold infer_go_dependencies inject_go_third_party_package_dependencies
    simp only [List.append_nil]
    rfl

/-! ## Claim theorems: entry-point resolution and target generation -/

/-- Claim C4: `determine_main_pkg_for_go_binary` as a case analysis. With an
explicit `main` value resolving to a target without the first-party sources
field, it fails with the configuration error naming the expected and actual
kinds. With no value: exactly one relevant first-party package target at the
binary's directory yields that target's address; none yields the fatal
resolve error for that directory; two or more yield the fatal ambiguity error
naming the candidate addresses. -/
theorem determine_main_pkg_for_go_binary_cases (field_value : Option Path)
    (specified_tgt : Target) (candidate_targets : List Target)
    (addr_spec_path : Path) :
    (∀ v, field_value = some v →
      specified_tgt.has_first_party_sources_field = false →
      determine_main_pkg_for_go_binary field_value specified_tgt
          candidate_targets addr_spec_path =
        .error (.invalidFieldException
          (String.toList "go_first_party_package")
          specified_tgt.target_alias)) ∧
    (field_value = none → ∀ tgt : Target,
      relevant_pkg_targets candidate_targets addr_spec_path = [tgt] →
      determine_main_pkg_for_go_binary field_value specified_tgt
          candidate_targets addr_spec_path = .ok tgt.address) ∧
    (field_value = none →
      relevant_pkg_targets candidate_targets addr_spec_path = [] →
      determine_main_pkg_for_go_binary field_value specified_tgt
          candidate_targets addr_spec_path =
        .error (.resolveErrorNoPackage addr_spec_path)) ∧
    (field_value = none →
      2 ≤ (relevant_pkg_targets candidate_targets addr_spec_path).length →
      determine_main_pkg_for_go_binary field_value specified_tgt
          candidate_targets addr_spec_path =
        .error (.resolveErrorAmbiguous
          ((relevant_pkg_targets candidate_targets addr_spec_path).map
            Target.address))) := by
  refine ⟨?_, ?_, ?_, ?_⟩
  · intro v hv hno
    subst hv
    simp [determine_main_pkg_for_go_binary, hno]
  · intro hv tgt hrel
    subst hv
    simp [determine_main_pkg_for_go_binary, hrel]
  · intro hv hrel
    subst hv
    simp [determine_main_pkg_for_go_binary, hrel]
  · intro hv hlen
    subst hv
    unfold determine_main_pkg_for_go_binary
    rcases hrel : relevant_pkg_targets candidate_targets addr_spec_path with
      _ | ⟨t1, _ | ⟨t2, rest⟩⟩
    · rw [hrel] at hlen
      simp at hlen
    · rw [hrel] at hlen
      simp at hlen
    · simp [hrel]

/-- Claim C4, witness: with no explicit `main` and two first-party package
targets at the binary's directory `src/go`, resolution fails with the
ambiguity error naming both addresses. -/
theorem determine_main_pkg_for_go_binary_cases_witness :
    determine_main_pkg_for_go_binary none
        ⟨⟨[], [], none⟩, [], false, false, []⟩
        [⟨⟨String.toList "src/go", String.toList "p1", none⟩,
           String.toList "go_first_party_package", true, true,
           String.toList "src/go"⟩,
         ⟨⟨String.toList "src/go", String.toList "p2", none⟩,
           String.toList "go_first_party_package", true, true,
           String.toList "src/go"⟩]
        (String.toList "src/go") =
      .error (.resolveErrorAmbiguous
        [⟨String.toList "src/go", String.toList "p1", none⟩,
         ⟨String.toList "src/go", String.toList "p2", none⟩]) := by
  have h := (determine_main_pkg_for_go_binary_cases none
    ⟨⟨[], [], none⟩, [], false, false, []⟩
    [⟨⟨String.toList "src/go", String.toList "p1", none⟩,
       String.toList "go_first_party_package", true, true,
       String.toList "src/go"⟩,
     ⟨⟨String.toList "src/go", String.toList "p2", none⟩,
       String.toList "go_first_party_package", true, true,
       String.toList "src/go"⟩]
    (String.toList "src/go")).2.2.2 rfl (by decide)
  rw [h]
  congr 1

/-- Claim C5: the fields of a generated first-party package target. When the
directory equals the manifest's location, the subpath is empty, the import
path is the manifest import path alone, and the address discriminator is
`./`. When the manifest sits at the build root (empty `spec_path`), the
subpath is the directory itself. When the directory is strictly below a
non-root manifest location (`dir = spec_path ++ "/" ++ rest`), the subpath is
`rest`, the import path is `<manifest import path>/<rest>`, and the address
is the generated child discriminated by `./<rest>`. -/
theorem create_first_party_package_tgt_fields (generator_addr : Address)
    (go_mod_import_path dir rest : Path) (filenames : List Path) :
    (dir = generator_addr.spec_path →
      (create_first_party_package_tgt generator_addr go_mod_import_path dir
        filenames).subpath = [] ∧
      (create_first_party_package_tgt generator_addr go_mod_import_path dir
        filenames).import_path = go_mod_import_path ∧
      (create_first_party_package_tgt generator_addr go_mod_import_path dir
        filenames).address =
        generator_addr.create_generated ('.' :: '/' :: ([] : Path))) ∧
    (generator_addr.spec_path = [] →
      (create_first_party_package_tgt generator_addr go_mod_import_path dir
        filenames).subpath = dir ∧
      (dir ≠ [] →
        (create_first_party_package_tgt generator_addr go_mod_import_path dir
          filenames).import_path = go_mod_import_path ++ '/' :: dir) ∧
      (create_first_party_package_tgt generator_addr go_mod_import_path dir
        filenames).address =
        generator_addr.create_generated ('.' :: '/' :: dir)) ∧
    (generator_addr.spec_path ≠ [] →
      dir = generator_addr.spec_path ++ '/' :: rest → rest ≠ [] →
      (create_first_party_package_tgt generator_addr go_mod_import_path dir
        filenames).subpath = rest ∧
      (create_first_party_package_tgt generator_addr go_mod_import_path dir
        filenames).import_path = go_mod_import_path ++ '/' :: rest ∧
      (create_first_party_package_tgt generator_addr go_mod_import_path dir
        filenames).address =
        generator_addr.create_generated ('.' :: '/' :: rest)) := by
  refine ⟨?_, ?_, ?_⟩
  · intro hdir
    subst hdir
    by_cases hsp : generator_addr.spec_path = []
    · refine ⟨?_, ?_, ?_⟩ <;> simp [create_first_party_package_tgt, hsp]
    · refine ⟨?_, ?_, ?_⟩ <;> simp [create_first_party_package_tgt, hsp]
  · intro hsp
    refine ⟨?_, ?_, ?_⟩
    · simp [create_first_party_package_tgt, hsp]
    · intro hdir
      simp [create_first_party_package_tgt, hsp, hdir]
    · simp [create_first_party_package_tgt, hsp]
  · intro hsp hdir hrest
    have hne : dir ≠ generator_addr.spec_path := by
      subst hdir
      intro hc
      have := congrArg List.length hc
      simp at this
    have hdrop : dir.drop (generator_addr.spec_path.length + 1) = rest := by
      subst hdir
      have hsplit : generator_addr.spec_path ++ '/' :: rest =
          (generator_addr.spec_path ++ ['/']) ++ rest := by simp
      rw [hsplit]
      have hlen : (generator_addr.spec_path ++ ['/']).length =
          generator_addr.spec_path.length + 1 := by simp
      rw [← hlen, List.drop_left]
    refine ⟨?_, ?_, ?_⟩ <;>
      simp [create_first_party_package_tgt, hsp, hne, hdrop, hrest]

/-- Claim C5, witness: for a manifest at `src/go` with import path
`example.com/m`, the directory `src/go/pkg/sub` yields subpath `pkg/sub`,
an import path of `example.com/m/pkg/sub`, and the generated address discriminated
by `./pkg/sub`. -/
theorem create_first_party_package_tgt_fields_witness :
    (create_first_party_package_tgt
        ⟨String.toList "src/go", String.toList "mod", none⟩
        (String.toList "example.com/m") (String.toList "src/go/pkg/sub")
        [String.toList "a.go"]).subpath = String.toList "pkg/sub" ∧
      (create_first_party_package_tgt
        ⟨String.toList "src/go", String.toList "mod", none⟩
        (String.toList "example.com/m") (String.toList "src/go/pkg/sub")
        [String.toList "a.go"]).import_path =
        String.toList "example.com/m" ++ '/' :: String.toList "pkg/sub" ∧
      (create_first_party_package_tgt
        ⟨String.toList "src/go", String.toList "mod", none⟩
        (String.toList "example.com/m") (String.toList "src/go/pkg/sub")
        [String.toList "a.go"]).address =
        Address.create_generated
          ⟨String.toList "src/go", String.toList "mod", none⟩
          ('.' :: '/' :: String.toList "pkg/sub") :=
  (create_first_party_package_tgt_fields
    ⟨String.toList "src/go", String.toList "mod", none⟩
    (String.toList "example.com/m") (String.toList "src/go/pkg/sub")
    (String.toList "pkg/sub") [String.toList "a.go"]).2.2
    (by decide) (by decide) (by decide)

/-- Claim C8: module expansion is deterministic in its inputs — two
invocations of `generate_targets_from_go_mod` on the same manifest state
(generator address, manifest import path), the same file-discovery result,
and the same module-resolution results produce the same address list and the
same generated targets, field for field. -/
theorem generate_targets_from_go_mod_idempotent
    (ga ga' : Address) (imp imp' : Path) (files files' : List Path)
    (mods mods' : List (List ThirdPartyPkgInfo))
    (h1 : ga = ga') (h2 : imp = imp') (h3 : files = files')
    (h4 : mods = mods') :
    (generate_targets_from_go_mod ga imp files mods).map
        GeneratedTarget.address =
      (generate_targets_from_go_mod ga' imp' files' mods').map
        GeneratedTarget.address ∧
    generate_targets_from_go_mod ga imp files mods =
      generate_targets_from_go_mod ga' imp' files' mods' := by
  subst h1; subst h2; subst h3; subst h4
  exact ⟨rfl, rfl⟩

/-- Claim C8, witness: re-invoking expansion on a concrete manifest state
(files in the manifest directory and a nested directory, one third-party
package) yields identical results. -/
theorem generate_targets_from_go_mod_idempotent_witness :
    (generate_targets_from_go_mod
        ⟨String.toList "src/go", String.toList "mod", none⟩
        (String.toList "example.com/m")
        [String.toList "src/go/a.go", String.toList "src/go/pkg/sub/b.go"]
        [[⟨String.toList "github.com/google/uuid", String.toList "v1.3.0",
           String.toList "github.com/google/uuid"⟩]]).map
        GeneratedTarget.address =
      (generate_targets_from_go_mod
        ⟨String.toList "src/go", String.toList "mod", none⟩
        (String.toList "example.com/m")
        [String.toList "src/go/a.go", String.toList "src/go/pkg/sub/b.go"]
        [[⟨String.toList "github.com/google/uuid", String.toList "v1.3.0",
           String.toList "github.com/google/uuid"⟩]]).map
        GeneratedTarget.address ∧
    generate_targets_from_go_mod
        ⟨String.toList "src/go", String.toList "mod", none⟩
        (String.toList "example.com/m")
        [String.toList "src/go/a.go", String.toList "src/go/pkg/sub/b.go"]
        [[⟨String.toList "github.com/google/uuid", String.toList "v1.3.0",
           String.toList "github.com/google/uuid"⟩]] =
      generate_targets_from_go_mod
        ⟨String.toList "src/go", String.toList "mod", none⟩
        (String.toList "example.com/m")
        [String.toList "src/go/a.go", String.toList "src/go/pkg/sub/b.go"]
        [[⟨String.toList "github.com/google/uuid", String.toList "v1.3.0",
           String.toList "github.com/google/uuid"⟩]] :=
  generate_targets_from_go_mod_idempotent _ _ _ _ _ _ _ _ rfl rfl rfl rfl

/-! ## Claim theorems: classpath assembly -/

/-- Claim C3: if any fallible result of the prerequisite (when present) or of
the direct dependencies is not SUCCEEDED, classpath assembly returns a
DEPENDENCY_FAILED result with no classpath entry and exit code 1, and the
result is independent of the unit's own files and of the archiving
collaborator — the packaging step is never invoked. -/
theorem assemble_resources_jar_dependency_failed
    (prereq_results dep_results : List FallibleClasspathEntry)
    (component_description : Path) (address : Address)
    (stripped_files stripped_files' : List Path)
    (zip zip' : List Path → Digest)
    (h : ∃ f ∈ prereq_results ++ dep_results,
      f.result ≠ CompileResult.SUCCEEDED) :
    assemble_resources_jar prereq_results dep_results component_description
        address stripped_files zip =
      { description := component_description
        result := .DEPENDENCY_FAILED
        output := none
        exit_code := 1 } ∧
    assemble_resources_jar prereq_results dep_results component_description
        address stripped_files zip =
      assemble_resources_jar prereq_results dep_results
        component_description address stripped_files' zip' := by
  have hall : if_all_succeeded (prereq_results ++ dep_results) = none := by
    unfold if_all_succeeded
    rcases h with ⟨f, hf, hres⟩
    have : ¬ (prereq_results ++ dep_results).all
        (fun f => f.result = CompileResult.SUCCEEDED) = true := by
      intro hc
      exact hres (by simpa using List.all_eq_true.mp hc f hf)
    simp only [this, if_false]
    simp at this
    simp [this]
  constructor
  · simp only [assemble_resources_jar, hall]
  · simp only [assemble_resources_jar, hall]

/-- Claim C3, witness: with one direct dependency whose result is FAILED,
assembly returns DEPENDENCY_FAILED with no entry and exit code 1, and two
different archiving collaborators give the same result. -/
theorem assemble_resources_jar_dependency_failed_witness :
    assemble_resources_jar []
        [{ description := String.toList "dep"
           result := .FAILED
           output := none
           exit_code := 1 }]
        (String.toList "src/res:res") ⟨String.toList "src/res",
          String.toList "res", none⟩ [String.toList "x.txt"] (fun _ => []) =
      { description := String.toList "src/res:res"
        result := .DEPENDENCY_FAILED
        output := none
        exit_code := 1 } ∧
    assemble_resources_jar []
        [{ description := String.toList "dep"
           result := .FAILED
           output := none
           exit_code := 1 }]
        (String.toList "src/res:res") ⟨String.toList "src/res",
          String.toList "res", none⟩ [String.toList "x.txt"] (fun _ => []) =
      assemble_resources_jar []
        [{ description := String.toList "dep"
           result := .FAILED
           output := none
           exit_code := 1 }]
        (String.toList "src/res:res") ⟨String.toList "src/res",
          String.toList "res", none⟩ [] (fun _ => [7]) :=
  assemble_resources_jar_dependency_failed _ _ _ _ _ _ _ _
    ⟨{ description := String.toList "dep"
       result := .FAILED
       output := none
       exit_code := 1 }, by simp, by simp⟩

/-- Claim C7: when the prerequisite (if present) and all direct dependencies
SUCCEEDED, classpath assembly returns SUCCEEDED with exit code 0 and the
merged entry: its file list is the unit's own deterministically named archive
followed by the upstream entries' files in dependency order, its digest is
the merge of the own archive's digest with all upstream digests, and its
nested entries record the own entry followed by the upstream entries. -/
theorem assemble_resources_jar_success
    (prereq_results dep_results : List FallibleClasspathEntry)
    (component_description : Path) (address : Address)
    (stripped_files : List Path) (zip : List Path → Digest)
    (h : ∀ f ∈ prereq_results ++ dep_results,
      f.result = CompileResult.SUCCEEDED) :
    assemble_resources_jar prereq_results dep_results component_description
        address stripped_files zip =
      { description := path_safe_spec address ++
          String.toList ".resources.jar"
        result := .SUCCEEDED
        output := some (.mk
          (mergeDigests (zip stripped_files ::
            ((prereq_results ++ dep_results).filterMap
              FallibleClasspathEntry.output).map ClasspathEntry.digest))
          ((path_safe_spec address ++ String.toList ".resources.jar") ::
            (((prereq_results ++ dep_results).filterMap
              FallibleClasspathEntry.output).map
                ClasspathEntry.filenames).flatten)
          (ClasspathEntry.mk (zip stripped_files)
              [path_safe_spec address ++ String.toList ".resources.jar"] [] ::
            (prereq_results ++ dep_results).filterMap
              FallibleClasspathEntry.output))
        exit_code := 0 } := by
  have hall : if_all_succeeded (prereq_results ++ dep_results) =
      some ((prereq_results ++ dep_results).filterMap
        FallibleClasspathEntry.output) := by
    unfold if_all_succeeded
    have : (prereq_results ++ dep_results).all
        (fun f => f.result = CompileResult.SUCCEEDED) = true := by
      rw [List.all_eq_true]
      intro f hf
      simp [h f hf]
    rw [if_pos this]
  simp only [assemble_resources_jar, hall]
  rfl

/-- Claim C7, witness: one SUCCEEDED dependency carrying an entry; the
assembled result is SUCCEEDED with exit code 0, the own archive first and the
upstream entry second, and the merged digest. -/
theorem assemble_resources_jar_success_witness :
    assemble_resources_jar []
        [{ description := String.toList "dep"
           result := .SUCCEEDED
           output := some (.mk [3] [String.toList "dep.jar"] [])
           exit_code := 0 }]
        (String.toList "src/res:res")
        ⟨String.toList "src/res", String.toList "res", none⟩
        [String.toList "x.txt"] (fun _ => [5]) =
      { description := path_safe_spec
            ⟨String.toList "src/res", String.toList "res", none⟩ ++
          String.toList ".resources.jar"
        result := .SUCCEEDED
        output := some (.mk
          (mergeDigests [[5], [3]])
          ((path_safe_spec
              ⟨String.toList "src/res", String.toList "res", none⟩ ++
            String.toList ".resources.jar") ::
            ([[String.toList "dep.jar"]] : List (List Path)).flatten)
          [ClasspathEntry.mk [5]
              [path_safe_spec
                  ⟨String.toList "src/res", String.toList "res", none⟩ ++
                String.toList ".resources.jar"] [],
            ClasspathEntry.mk [3] [String.toList "dep.jar"] []])
        exit_code := 0 } :=
  assemble_resources_jar_success []
    [{ description := String.toList "dep"
       result := .SUCCEEDED
       output := some (.mk [3] [String.toList "dep.jar"] [])
       exit_code := 0 }]
    (String.toList "src/res:res")
    ⟨String.toList "src/res", String.toList "res", none⟩
    [String.toList "x.txt"] (fun _ => [5])
    (by intro f hf; simp at hf; rw [hf])

/-! ## Claim theorems: safety of the directory-grouping assertion -/

/-- Modelled from the spec: the file-discovery collaborator (`path_globs` on
`GoModPackageSourcesField`, not present under `src/`) matches only files in
the manifest's own subtree — when the manifest is not at the build root,
every discovered file path extends the manifest directory by a `/`. -/
def discovered_under (spec_path f : Path) : Prop :=
  spec_path = [] ∨ ∃ r, f = spec_path ++ '/' :: r

/-- Dropping up to the first `/` skips a slash-free block. -/
theorem dropWhile_append_no_slash : ∀ (l₁ l₂ : Path), '/' ∉ l₁ →
    List.dropWhile (fun c => c ≠ '/') (l₁ ++ l₂) =
      List.dropWhile (fun c => c ≠ '/') l₂
  | [], _, _ => rfl
  | a :: tl, l₂, h => by
    have ha : a ≠ '/' := fun hc => h (hc ▸ List.mem_cons_self a tl)
    have htl := dropWhile_append_no_slash tl l₂
      (fun hc => h (List.mem_cons_of_mem a hc))
    simpa [ha] using htl

/-- Dropping up to the first `/` inside a block containing one stops at it. -/
theorem dropWhile_append_with_slash : ∀ (l₁ l₂ : Path), '/' ∈ l₁ →
    ∃ t : Path, List.dropWhile (fun c => c ≠ '/') (l₁ ++ l₂) =
      '/' :: (t ++ l₂)
  | [], _, h => absurd h (List.not_mem_nil _)
  | a :: tl, l₂, h => by
    by_cases ha : a = '/'
    · subst ha
      exact ⟨tl, by simp [List.dropWhile_cons]⟩
    · have hm : '/' ∈ tl := by
        rcases List.mem_cons.mp h with hc | hc
        · exact absurd hc.symm ha
        · exact hc
      obtain ⟨t, ht⟩ := dropWhile_append_with_slash tl l₂ hm
      refine ⟨t, ?_⟩
      simpa [ha] using ht

/-- The dirname of a file one slash-free component below `p` is `p`. -/
theorem dirname_of_no_slash (p r : Path) (h : '/' ∉ r) :
    dirname (p ++ '/' :: r) = p := by
  unfold dirname
  rw [show (p ++ '/' :: r).reverse = r.reverse ++ '/' :: p.reverse by simp]
  rw [dropWhile_append_no_slash r.reverse ('/' :: p.reverse)
    (by simpa using h)]
  simp [List.dropWhile_cons]

/-- The dirname of a file more than one component below `p` extends `p` by a
slash. -/
theorem dirname_of_slash (p r : Path) (h : '/' ∈ r) :
    ∃ d : Path, dirname (p ++ '/' :: r) = p ++ '/' :: d := by
  unfold dirname
  rw [show (p ++ '/' :: r).reverse = r.reverse ++ '/' :: p.reverse by simp]
  obtain ⟨t, ht⟩ := dropWhile_append_with_slash r.reverse ('/' :: p.reverse)
    (by simpa using h)
  refine ⟨t.reverse, ?_⟩
  rw [ht]
  simp

/-- Every directory kept by first-occurrence deduplication occurs in the
input. -/
theorem mem_dedupKeepFirst : ∀ (l : List Path) (x : Path),
    x ∈ dedupKeepFirst l → x ∈ l
  | [], _, h => absurd h (List.not_mem_nil _)
  | d :: ds, x, h => by
    rcases List.mem_cons.mp h with hc | hc
    · exact hc ▸ List.mem_cons_self d ds
    · exact List.mem_cons_of_mem d
        (mem_dedupKeepFirst ds x (List.mem_of_mem_filter hc))

/-- Claim C10: when every discovered file lies in the manifest's subtree,
every directory produced by grouping starts with the manifest's directory
(so the assertion `dir.startswith(go_mod_spec_path)` guarding first-party
unit creation never fails), and for a directory strictly below a non-root
manifest directory the subpath slice after the prefix and the separating `/`
recovers the directory — the slice is well-defined. -/
theorem group_by_dir_dirs_safe (p : Path) (files : List Path)
    (hf : ∀ f ∈ files, discovered_under p f) :
    ∀ df ∈ group_by_dir files, p.isPrefixOf df.1 = true ∧
      (p ≠ [] → df.1 ≠ p →
        df.1 = p ++ '/' :: df.1.drop (p.length + 1)) := by
  intro df hdf
  have hdir : df.1 ∈ files.map dirname := by
    unfold group_by_dir at hdf
    rcases List.mem_map.mp hdf with ⟨d, hd, hpair⟩
    rw [← hpair]
    exact mem_dedupKeepFirst _ _ hd
  rcases List.mem_map.mp hdir with ⟨f, hfmem, hfd⟩
  rcases hf f hfmem with hroot | ⟨r, hr⟩
  · subst hroot
    refine ⟨List.isPrefixOf_iff_prefix.mpr (List.nil_prefix), ?_⟩
    intro hc
    exact absurd rfl hc
  · subst hr
    by_cases hslash : '/' ∈ r
    · obtain ⟨d, hd⟩ := dirname_of_slash p r hslash
      rw [← hfd, hd]
      have hdrop : (p ++ '/' :: d).drop (p.length + 1) = d := by
        rw [show p ++ '/' :: d = (p ++ ['/']) ++ d by simp]
        rw [show p.length + 1 = (p ++ ['/']).length by simp,
          List.drop_left]
      refine ⟨List.isPrefixOf_iff_prefix.mpr (List.prefix_append p _), ?_⟩
      intro _ _
      rw [hdrop]
    · rw [← hfd, dirname_of_no_slash p r hslash]
      refine ⟨List.isPrefixOf_iff_prefix.mpr List.prefix_rfl, ?_⟩
      intro _ hc
      exact absurd rfl hc

/-- Claim C10, witness: for a manifest at `src/go` and files in its own
directory and a nested one, the grouped directory `src/go/pkg` starts with
`src/go` and its slice after the prefix is the subpath `pkg`. -/
theorem group_by_dir_dirs_safe_witness :
    (String.toList "src/go").isPrefixOf
        (String.toList "src/go/pkg") = true ∧
      ((String.toList "src/go") ≠ [] →
        (String.toList "src/go/pkg") ≠ (String.toList "src/go") →
        (String.toList "src/go/pkg") = (String.toList "src/go") ++
          '/' :: (String.toList "src/go/pkg").drop
            ((String.toList "src/go").length + 1)) := by
  have h := group_by_dir_dirs_safe (String.toList "src/go")
    [String.toList "src/go/a.go", String.toList "src/go/pkg/b.go"]
    (by
      intro f hfm
      rcases List.mem_cons.mp hfm with hc | hc
      · exact hc ▸ Or.inr ⟨String.toList "a.go", by decide⟩
      · rcases List.mem_cons.mp hc with hc2 | hc2
        · exact hc2 ▸ Or.inr ⟨String.toList "pkg/b.go", by decide⟩
        · exact absurd hc2 (List.not_mem_nil f))
    (String.toList "src/go/pkg", [String.toList "b.go"])
    (by decide)
  exact h

end Pants
